import Mathlib

/-!
Verification of the Chatwoot repository services against their specification:
the bot-facing API surface (referral tiers, withdrawal preview, magic links,
credentials — documented in src/unnamed/part_000; the implementation itself is
not part of the repository snapshot, so those components are modelled from the
specification), the Telegram admin-panel backend
(src/Telegram_Bot_Admin_Panel_Backend/server.ts) and the tag-store service
(src/TagStore_Server).
-/

namespace Chatwoot

/-- One commission tier row: level, display name, minimum active-referral
threshold and commission percent (the fixed table shown in the referral
response of src/unnamed/part_000). -/
structure Tier where
  tier : Nat
  name : String
  min_refs : Nat
  commission : Nat
deriving DecidableEq

def tier0 : Tier := { tier := 0, name := "Starter", min_refs := 0, commission := 5 }

def tier1 : Tier := { tier := 1, name := "Bronze", min_refs := 10, commission := 10 }

def tier2 : Tier := { tier := 2, name := "Silver", min_refs := 25, commission := 15 }

def tier3 : Tier := { tier := 3, name := "Gold", min_refs := 50, commission := 20 }

def tier4 : Tier := { tier := 4, name := "Platinum", min_refs := 100, commission := 25 }

def tier5 : Tier := { tier := 5, name := "Diamond", min_refs := 200, commission := 30 }

/-- The fixed six-entry tier table, ascending by threshold
(src/unnamed/part_000, referral response `tiers`). -/
def tiers : List Tier := [tier0, tier1, tier2, tier3, tier4, tier5]

/-- Modelled from the spec: the bot API implementation is absent from the
repository (src/unnamed/part_000 only documents it). Spec 4.2: the resolver is
a linear scan over the tier table from the highest threshold down, the first
tier whose `min_refs` does not exceed the count wins, and a count below the
lowest threshold resolves to tier 0. -/
def resolveTier (c : Nat) : Tier :=
  (tiers.reverse.find? (fun t => decide (t.min_refs ≤ c))).getD tier0

theorem resolveTier_eq (c : Nat) :
    resolveTier c =
      if 200 ≤ c then tier5
      else if 100 ≤ c then tier4
      else if 50 ≤ c then tier3
      else if 25 ≤ c then tier2
      else if 10 ≤ c then tier1
      else tier0 := by
  simp only [resolveTier, tiers, List.reverse_cons, List.reverse_nil, List.nil_append,
    List.cons_append, List.find?, tier0, tier1, tier2, tier3, tier4, tier5]
  by_cases h5 : 200 ≤ c <;> by_cases h4 : 100 ≤ c <;> by_cases h3 : 50 ≤ c <;>
    by_cases h2 : 25 ≤ c <;> by_cases h1 : 10 ≤ c <;>
    simp [h5, h4, h3, h2, h1]

/-- C2: for every non-negative active-referral count `c`, the resolver returns
the unique index `i` of the fixed six-entry ascending tier table with
`tiers[i].min_refs <= c` and (`i` is the last index or `tiers[i+1].min_refs > c`);
it never fails, and c = 0 and c = 9 resolve to tier 0 Starter, c = 10 to
tier 1 Bronze, c = 200 and c = 1000 to tier 5 Diamond. -/
theorem referral_tier_resolution (c : Nat) :
    tiers.get? (resolveTier c).tier = some (resolveTier c) ∧
    (resolveTier c).min_refs ≤ c ∧
    ((resolveTier c).tier = tiers.length - 1 ∨
      ∀ t, tiers.get? ((resolveTier c).tier + 1) = some t → c < t.min_refs) ∧
    (∀ i t, tiers.get? i = some t → t.min_refs ≤ c →
      (i = tiers.length - 1 ∨ ∀ u, tiers.get? (i + 1) = some u → c < u.min_refs) →
      i = (resolveTier c).tier) ∧
    resolveTier 0 = tier0 ∧ resolveTier 9 = tier0 ∧ resolveTier 10 = tier1 ∧
    resolveTier 200 = tier5 ∧ resolveTier 1000 = tier5 ∧
    tier0.name = "Starter" ∧ tier1.name = "Bronze" ∧ tier5.name = "Diamond" ∧
    tier0.tier = 0 ∧ tier1.tier = 1 ∧ tier5.tier = 5 := by
  have he := resolveTier_eq c
  refine ⟨?_, ?_, ?_, ?_, by decide, by decide, by decide, by decide, by decide,
    rfl, rfl, rfl, rfl, rfl, rfl⟩
  · rw [he]; split_ifs <;> rfl
  · rw [he]; split_ifs <;> simp [tier0, tier1, tier2, tier3, tier4, tier5] <;> omega
  · rw [he]
    split_ifs with h5 h4 h3 h2 h1
    · left; rfl
    · right; intro t ht
      have hg : tiers.get? (tier4.tier + 1) = some tier5 := rfl
      injection hg.symm.trans ht with h
      subst h; simp [tier5]; omega
    · right; intro t ht
      have hg : tiers.get? (tier3.tier + 1) = some tier4 := rfl
      injection hg.symm.trans ht with h
      subst h; simp [tier4]; omega
    · right; intro t ht
      have hg : tiers.get? (tier2.tier + 1) = some tier3 := rfl
      injection hg.symm.trans ht with h
      subst h; simp [tier3]; omega
    · right; intro t ht
      have hg : tiers.get? (tier1.tier + 1) = some tier2 := rfl
      injection hg.symm.trans ht with h
      subst h; simp [tier2]; omega
    · right; intro t ht
      have hg : tiers.get? (tier0.tier + 1) = some tier1 := rfl
      injection hg.symm.trans ht with h
      subst h; simp [tier1]; omega
  · intro i t hget hle hnext
    have glen : tiers.length = 6 := rfl
    rw [glen] at hnext
    have hi : i < 6 := by
      by_contra hni
      rw [List.get?_eq_none.mpr (by rw [glen]; omega)] at hget
      cases hget
    rw [he]
    interval_cases i
    · have h0 : tiers.get? 0 = some tier0 := rfl
      injection h0.symm.trans hget with h
      subst h
      rcases hnext with h | h
      · omega
      · have hc := h tier1 rfl
        simp [tier0, tier1] at hle hc
        split_ifs <;> simp [tier0, tier1, tier2, tier3, tier4, tier5] <;> omega
    · have h0 : tiers.get? 1 = some tier1 := rfl
      injection h0.symm.trans hget with h
      subst h
      rcases hnext with h | h
      · omega
      · have hc := h tier2 rfl
        simp [tier1, tier2] at hle hc
        split_ifs <;> simp [tier0, tier1, tier2, tier3, tier4, tier5] <;> omega
    · have h0 : tiers.get? 2 = some tier2 := rfl
      injection h0.symm.trans hget with h
      subst h
      rcases hnext with h | h
      · omega
      · have hc := h tier3 rfl
        simp [tier2, tier3] at hle hc
        split_ifs <;> simp [tier0, tier1, tier2, tier3, tier4, tier5] <;> omega
    · have h0 : tiers.get? 3 = some tier3 := rfl
      injection h0.symm.trans hget with h
      subst h
      rcases hnext with h | h
      · omega
      · have hc := h tier4 rfl
        simp [tier3, tier4] at hle hc
        split_ifs <;> simp [tier0, tier1, tier2, tier3, tier4, tier5] <;> omega
    · have h0 : tiers.get? 4 = some tier4 := rfl
      injection h0.symm.trans hget with h
      subst h
      rcases hnext with h | h
      · omega
      · have hc := h tier5 rfl
        simp [tier4, tier5] at hle hc
        split_ifs <;> simp [tier0, tier1, tier2, tier3, tier4, tier5] <;> omega
    · have h0 : tiers.get? 5 = some tier5 := rfl
      injection h0.symm.trans hget with h
      subst h
      simp [tier5] at hle
      split_ifs <;> simp [tier0, tier1, tier2, tier3, tier4, tier5] <;> omega

/-- Modelled from the spec: account state read by the withdrawal preview
(spec 4.3): lock flag, last approved deposit amount (none when no approved
deposit is on record), and the real/bonus balance split. Monetary amounts are
decimals, embedded as rationals. -/
structure WithdrawalAccount where
  locked : Bool
  lastDeposit : Option ℚ
  realBalance : ℚ
  bonusBalance : ℚ
deriving DecidableEq

/-- Modelled from the spec: per-game multiplier policy bounding cashouts as a
multiple of the last deposit (spec 4.3, glossary). -/
structure MultiplierPolicy where
  minMultiplier : ℚ
  maxMultiplier : ℚ
deriving DecidableEq

/-- Modelled from the spec: the computed withdrawal preview response
(spec 3 WithdrawalPreview, src/unnamed/part_000 response shape); fields that
an early-exit leaves uncomputed are none. -/
structure WithdrawalPreview where
  can_withdraw : Bool
  block_reason : Option String
  total_balance : ℚ
  min_cashout : Option ℚ
  max_cashout : Option ℚ
  payout_amount : Option ℚ
  void_amount : Option ℚ
deriving DecidableEq

/-- Modelled from the spec: monetary values display with 2-digit precision
(spec 4.3 numeric semantics). Renders a rational as a decimal string with two
digits after the point. -/
def money2 (q : ℚ) : String :=
  let cents : Int := Int.floor (q * 100)
  let sign := if cents < 0 then "-" else ""
  let n := cents.natAbs
  let frac := n % 100
  sign ++ toString (n / 100) ++ "." ++ (if frac < 10 then "0" ++ toString frac else toString frac)

/-- Modelled from the spec: display of the multiplier N in the templated
block reason (spec 4.3 step 3): whole multipliers render without a decimal
point, others with two digits. -/
def multDisplay (q : ℚ) : String :=
  if q.den = 1 then toString q.num else money2 q

/-- Block reason of spec 4.3 step 1. -/
def lockedMsg : String := "Withdrawals are locked for this account."

/-- Block reason of spec 4.3 step 2. -/
def noDepositMsg : String := "No approved deposit found. You must deposit first."

/-- Modelled from the spec: the templated block reason of spec 4.3 step 3,
"Balance $X is below minimum cashout $Y (Nx of last deposit)" with X, Y, N
substituted from the computed values. -/
def belowMinMsg (total minC mult : ℚ) : String :=
  "Balance $" ++ money2 total ++ " is below minimum cashout $" ++ money2 minC ++
    " (" ++ multDisplay mult ++ "x of last deposit)"

/-- Modelled from the spec: the withdrawal policy evaluator (spec 4.3), absent
from the repository snapshot (src/unnamed/part_000 documents its response and
block reasons). Steps in order, each an early exit: locked account; no
approved deposit; total balance below `min_cashout`; otherwise eligible with
`payout_amount = min(total, max_cashout)` and
`void_amount = max(0, total - max_cashout)`. -/
def previewWithdrawal (p : MultiplierPolicy) (a : WithdrawalAccount) : WithdrawalPreview :=
  let total := a.realBalance + a.bonusBalance
  if a.locked then
    { can_withdraw := false, block_reason := some lockedMsg, total_balance := total,
      min_cashout := none, max_cashout := none, payout_amount := none, void_amount := none }
  else
    match a.lastDeposit with
    | none =>
      { can_withdraw := false, block_reason := some noDepositMsg, total_balance := total,
        min_cashout := none, max_cashout := none, payout_amount := none, void_amount := none }
    | some d =>
      let minC := p.minMultiplier * d
      let maxC := p.maxMultiplier * d
      if total < minC then
        { can_withdraw := false,
          block_reason := some (belowMinMsg total minC p.minMultiplier),
          total_balance := total, min_cashout := some minC, max_cashout := some maxC,
          payout_amount := none, void_amount := none }
      else
        { can_withdraw := true, block_reason := none, total_balance := total,
          min_cashout := some minC, max_cashout := some maxC,
          payout_amount := some (min total maxC),
          void_amount := some (max 0 (total - maxC)) }

/-- C1: whenever the preview is not blocked, `min_cashout` and `max_cashout`
are the multipliers times the last deposit, `payout_amount` is
min(total, max_cashout) and `void_amount` is max(0, total - max_cashout); with
multipliers 1 and 3, last deposit 100 and total balance 250 the preview is
eligible with payout 250 and void 0, and with total balance 400 the payout is
300 and the void 100. -/
theorem withdrawal_preview_arithmetic (p : MultiplierPolicy) (a : WithdrawalAccount) :
    ((previewWithdrawal p a).can_withdraw = true →
      ∃ d, a.lastDeposit = some d ∧
        (previewWithdrawal p a).min_cashout = some (p.minMultiplier * d) ∧
        (previewWithdrawal p a).max_cashout = some (p.maxMultiplier * d) ∧
        (previewWithdrawal p a).payout_amount =
          some (min (a.realBalance + a.bonusBalance) (p.maxMultiplier * d)) ∧
        (previewWithdrawal p a).void_amount =
          some (max 0 (a.realBalance + a.bonusBalance - p.maxMultiplier * d))) ∧
    (previewWithdrawal ⟨1, 3⟩ ⟨false, some 100, 200, 50⟩).can_withdraw = true ∧
    (previewWithdrawal ⟨1, 3⟩ ⟨false, some 100, 200, 50⟩).min_cashout = some 100 ∧
    (previewWithdrawal ⟨1, 3⟩ ⟨false, some 100, 200, 50⟩).max_cashout = some 300 ∧
    (previewWithdrawal ⟨1, 3⟩ ⟨false, some 100, 200, 50⟩).payout_amount = some 250 ∧
    (previewWithdrawal ⟨1, 3⟩ ⟨false, some 100, 200, 50⟩).void_amount = some 0 ∧
    (previewWithdrawal ⟨1, 3⟩ ⟨false, some 100, 400, 0⟩).payout_amount = some 300 ∧
    (previewWithdrawal ⟨1, 3⟩ ⟨false, some 100, 400, 0⟩).void_amount = some 100 := by
  constructor
  · intro h
    rcases a with ⟨locked, dep, rb, bb⟩
    cases locked
    · cases dep with
      | none => simp [previewWithdrawal] at h
      | some d =>
        refine ⟨d, rfl, ?_⟩
        by_cases hlt : rb + bb < p.minMultiplier * d
        · simp [previewWithdrawal, hlt] at h
        · simp [previewWithdrawal, hlt]
    · simp [previewWithdrawal] at h
  · refine ⟨?_, ?_, ?_, ?_, ?_, ?_, ?_⟩ <;> norm_num [previewWithdrawal]

/-- Witness for C1 at the spec's concrete example: multipliers 1 and 3, last
deposit 100, balances 200 real and 50 bonus. -/
theorem withdrawal_preview_arithmetic_witness :
    ∃ d, (WithdrawalAccount.mk false (some 100) 200 50).lastDeposit = some d ∧
      (previewWithdrawal ⟨1, 3⟩ ⟨false, some 100, 200, 50⟩).min_cashout =
        some ((1 : ℚ) * d) ∧
      (previewWithdrawal ⟨1, 3⟩ ⟨false, some 100, 200, 50⟩).max_cashout =
        some ((3 : ℚ) * d) ∧
      (previewWithdrawal ⟨1, 3⟩ ⟨false, some 100, 200, 50⟩).payout_amount =
        some (min ((200 : ℚ) + 50) (3 * d)) ∧
      (previewWithdrawal ⟨1, 3⟩ ⟨false, some 100, 200, 50⟩).void_amount =
        some (max 0 ((200 : ℚ) + 50 - 3 * d)) :=
  (withdrawal_preview_arithmetic ⟨1, 3⟩ ⟨false, some 100, 200, 50⟩).1
    (by norm_num [previewWithdrawal])

/-- C3: the withdrawal policy evaluator checks its block conditions in a fixed
order with mutually exclusive reasons: a set lock flag blocks first with the
lock reason regardless of balance or deposits, only an unlocked account with
no approved deposit blocks with the no-deposit reason, only then does a total
balance below min_cashout block with the templated message, otherwise no
reason is reported; the three reasons are pairwise distinct, and the single
optional `block_reason` field carries at most one of them. -/
theorem withdrawal_block_order (p : MultiplierPolicy) (a : WithdrawalAccount) :
    (a.locked = true → (previewWithdrawal p a).block_reason = some lockedMsg) ∧
    (a.locked = false → a.lastDeposit = none →
      (previewWithdrawal p a).block_reason = some noDepositMsg) ∧
    (∀ d, a.locked = false → a.lastDeposit = some d →
      a.realBalance + a.bonusBalance < p.minMultiplier * d →
      (previewWithdrawal p a).block_reason =
        some (belowMinMsg (a.realBalance + a.bonusBalance) (p.minMultiplier * d)
          p.minMultiplier)) ∧
    (∀ d, a.locked = false → a.lastDeposit = some d →
      ¬ a.realBalance + a.bonusBalance < p.minMultiplier * d →
      (previewWithdrawal p a).block_reason = none ∧
      (previewWithdrawal p a).can_withdraw = true) ∧
    lockedMsg ≠ noDepositMsg ∧
    (∀ x y m, lockedMsg ≠ belowMinMsg x y m) ∧
    (∀ x y m, noDepositMsg ≠ belowMinMsg x y m) := by
  refine ⟨?_, ?_, ?_, ?_, by decide, ?_, ?_⟩
  · intro h; simp [previewWithdrawal, h]
  · intro h hd; simp [previewWithdrawal, h, hd]
  · intro d h hd hlt; simp [previewWithdrawal, h, hd, hlt]
  · intro d h hd hge; simp [previewWithdrawal, h, hd, hge]
  · intro x y m h
    have h2 := congrArg String.data h
    rw [belowMinMsg, lockedMsg] at h2
    rw [String.data_append] at h2
    simp [String.data] at h2
  · intro x y m h
    have h2 := congrArg String.data h
    rw [belowMinMsg, noDepositMsg] at h2
    rw [String.data_append] at h2
    simp [String.data] at h2

/-- Witness for C3: a locked account with ample balance and an approved
deposit is still blocked with the lock reason, and the unlocked variants hit
the other branches. -/
theorem withdrawal_block_order_witness :
    (previewWithdrawal ⟨1, 3⟩ ⟨true, some 100, 200, 50⟩).block_reason = some lockedMsg ∧
    (previewWithdrawal ⟨1, 3⟩ ⟨false, none, 200, 50⟩).block_reason = some noDepositMsg ∧
    (previewWithdrawal ⟨1, 3⟩ ⟨false, some 100, 40, 10⟩).block_reason =
      some (belowMinMsg ((40 : ℚ) + 10) ((1 : ℚ) * 100) 1) ∧
    (previewWithdrawal ⟨1, 3⟩ ⟨false, some 100, 200, 50⟩).block_reason = none :=
  ⟨(withdrawal_block_order ⟨1, 3⟩ ⟨true, some 100, 200, 50⟩).1 rfl,
   (withdrawal_block_order ⟨1, 3⟩ ⟨false, none, 200, 50⟩).2.1 rfl rfl,
   (withdrawal_block_order ⟨1, 3⟩ ⟨false, some 100, 40, 10⟩).2.2.1 100 rfl rfl
     (by norm_num),
   ((withdrawal_block_order ⟨1, 3⟩ ⟨false, some 100, 200, 50⟩).2.2.2.1 100 rfl rfl
     (by norm_num)).1⟩

/-- Modelled from the spec: one stored game-credential row (spec 3
GameCredential, src/unnamed/part_000 credentials response). -/
structure GameCredential where
  user_id : String
  game_id : String
  game_name : String
  display_name : String
  game_username : String
  game_password : String
  balance : ℚ
deriving DecidableEq

/-- Modelled from the spec: the per-user referral profile row (spec 3
ReferralProfile); the tier is derived by `resolveTier`, never stored. -/
structure ReferralProfile where
  user_id : String
  referral_code : String
  active_referrals : Nat
  pending_earnings : ℚ
  confirmed_earnings : ℚ
deriving DecidableEq

/-- Modelled from the spec: a persisted magic-link record (spec 3 MagicLink):
link id, owning user, hash of the issued token, expiry, consumed flag. -/
structure MagicLinkRec where
  link_id : Nat
  user_id : String
  token_hash : Nat
  expires_at : Nat
  consumed : Bool
deriving DecidableEq

/-- Modelled from the spec: the balance/lock/deposit state and multiplier
policy the withdrawal preview reads for one (user, game) pair. -/
structure WithdrawRow where
  user_id : String
  game_name : String
  policy : MultiplierPolicy
  account : WithdrawalAccount
deriving DecidableEq

/-- Modelled from the spec: the backing store of the bot API surface: user
ids, credential rows, referral profiles, per-game withdrawal state, persisted
magic-link records and the fresh link-id counter. -/
structure ServerState where
  users : List String
  credentials : List GameCredential
  referralProfiles : List ReferralProfile
  withdrawRows : List WithdrawRow
  magicLinks : List MagicLinkRec
  nextLinkId : Nat
deriving DecidableEq

/-- Modelled from the spec: the withdrawal-preview endpoint is a read-only
request cycle (spec 5): it reads the (user, game) row, computes the preview
and writes nothing back. -/
def previewEndpoint (st : ServerState) (uid game : String) :
    Option WithdrawalPreview × ServerState :=
  match st.withdrawRows.find? (fun r => r.user_id == uid && r.game_name == game) with
  | some r => (some (previewWithdrawal r.policy r.account), st)
  | none => (none, st)

/-- C6: the withdrawal preview is deterministic and read-only: it leaves the
store unchanged, and evaluating it a second time against the state the first
evaluation left behind yields the identical output. -/
theorem withdrawal_preview_idempotent (st : ServerState) (uid game : String) :
    (previewEndpoint st uid game).2 = st ∧
    (previewEndpoint (previewEndpoint st uid game).2 uid game).1 =
      (previewEndpoint st uid game).1 := by
  have hst : (previewEndpoint st uid game).2 = st := by
    unfold previewEndpoint
    cases st.withdrawRows.find? (fun r => r.user_id == uid && r.game_name == game) <;> rfl
  exact ⟨hst, by rw [hst]⟩

/-- Modelled from the spec: extraction of the bot credential from the two
header forms `Authorization: Bot <token>` and `X-Bot-Token: <token>`
(spec 4.1, src/unnamed/part_000 Authentication). -/
def stripBotScheme (a : String) : Option String :=
  match a.data with
  | 'B' :: 'o' :: 't' :: ' ' :: rest => some (String.mk rest)
  | _ => none

/-- Modelled from the spec: the token carried by a request, if any: the
`Authorization: Bot` form when well-formed, else the `X-Bot-Token` header. -/
def extractBotToken (auth xbot : Option String) : Option String :=
  match auth with
  | some a =>
    match stripBotScheme a with
    | some t => some t
    | none => xbot
  | none => xbot

/-- Modelled from the spec: the auth guard accepts exactly when an extracted
token equals the configured secret byte for byte (spec 4.1). -/
def botAuthGuard (secret : String) (auth xbot : Option String) : Bool :=
  match extractBotToken auth xbot with
  | some t => t == secret
  | none => false

/-- Modelled from the spec: an incoming bot API request: the two credential
headers plus the path and body the business logic would parse. -/
structure BotRequest where
  auth : Option String
  xBotToken : Option String
  path : String
  body : String
deriving DecidableEq

/-- Modelled from the spec: outcome of the guard stage: an authentication
failure, or continuation into business logic with the request's path and
body. -/
inductive BotOutcome where
  | rejected
  | accepted (path : String) (body : String)
deriving DecidableEq

/-- Modelled from the spec: the guard runs before any business logic; on
failure the request is rejected without the path or body being parsed
(spec 4.1). -/
def botGate (secret : String) (req : BotRequest) : BotOutcome :=
  if botAuthGuard secret req.auth req.xBotToken then
    BotOutcome.accepted req.path req.body
  else BotOutcome.rejected

/-- C4: the auth guard rejects when both header forms are absent or the
supplied token differs in any byte from the secret (a token with trailing
whitespace is such a different token); the rejection outcome carries nothing
from the request's path or body, and on success the guard merely continues
into business logic with the request untouched. -/
theorem bot_auth_guard (secret : String) (req : BotRequest) :
    (req.auth = none → req.xBotToken = none → botGate secret req = BotOutcome.rejected) ∧
    (∀ t, extractBotToken req.auth req.xBotToken = some t → t ≠ secret →
      botGate secret req = BotOutcome.rejected) ∧
    (∀ s, extractBotToken (some ("Bot " ++ s)) none = some s) ∧
    (∀ s, s ≠ secret → botAuthGuard secret (some ("Bot " ++ s)) none = false) ∧
    secret ++ " " ≠ secret ∧
    (botAuthGuard secret req.auth req.xBotToken = true →
      botGate secret req = BotOutcome.accepted req.path req.body) := by
  have hext : ∀ s : String, extractBotToken (some ("Bot " ++ s)) none = some s := by
    intro s
    have hd : ("Bot " ++ s).data = 'B' :: 'o' :: 't' :: ' ' :: s.data := by
      rw [String.data_append]; rfl
    simp only [extractBotToken, stripBotScheme, hd]
  refine ⟨?_, ?_, hext, ?_, ?_, ?_⟩
  · intro h1 h2
    simp [botGate, botAuthGuard, extractBotToken, h1, h2]
  · intro t ht hne
    simp [botGate, botAuthGuard, ht, hne]
  · intro s hne
    simp [botAuthGuard, hext s, hne]
  · intro h
    have := congrArg String.length h
    rw [String.length_append] at this
    have hone : (" " : String).length = 1 := rfl
    omega
  · intro h
    simp [botGate, h]

/-- Witness for C4: with secret "s3cret", a request with no credential
headers is rejected, a near-match token ("S3cret", and the trailing-blank
variant) is rejected, and the exact token is accepted. -/
theorem bot_auth_guard_witness :
    botGate "s3cret" ⟨none, none, "/magic-link", "x"⟩ = BotOutcome.rejected ∧
    botGate "s3cret" ⟨some "Bot S3cret", none, "/magic-link", "x"⟩ = BotOutcome.rejected ∧
    botGate "s3cret" ⟨none, some ("s3cret" ++ " "), "/magic-link", "x"⟩ =
      BotOutcome.rejected ∧
    botGate "s3cret" ⟨some "Bot s3cret", none, "/magic-link", "x"⟩ =
      BotOutcome.accepted "/magic-link" "x" :=
  ⟨(bot_auth_guard "s3cret" ⟨none, none, "/magic-link", "x"⟩).1 rfl rfl,
   (bot_auth_guard "s3cret" ⟨some "Bot S3cret", none, "/magic-link", "x"⟩).2.1
     "S3cret" (by decide) (by decide),
   (bot_auth_guard "s3cret" ⟨none, some ("s3cret" ++ " "), "/magic-link", "x"⟩).2.1
     ("s3cret" ++ " ") (by decide)
     ((bot_auth_guard "s3cret" ⟨none, none, "", ""⟩).2.2.2.2.1),
   (bot_auth_guard "s3cret" ⟨some "Bot s3cret", none, "/magic-link", "x"⟩).2.2.2.2.2
     (by decide)⟩

/-- Modelled from the spec: the signed, time-limited token embedded in a magic
link (spec 4.4): it carries the user id, an expiry claim equal to issue time
plus 900 seconds, and the fresh link id of the record persisted alongside it
(the JWT of src/unnamed/part_000). -/
structure MagicToken where
  user_id : String
  expires_at : Nat
  jti : Nat
deriving DecidableEq

/-- Modelled from the spec: the one-way hash of a token persisted in the
magic-link record (spec 3 MagicLink); a concrete stand-in for the external
hash function. -/
def tokenHash (t : MagicToken) : Nat :=
  (t.user_id.data.foldl (fun a c => a * 131 + c.toNat) 7) * 1000003 +
    t.expires_at * 31 + t.jti

/-- Modelled from the spec: serialized token as embedded in the magic-link
URL. -/
def encodeToken (t : MagicToken) : String :=
  t.user_id ++ ":" ++ toString t.expires_at ++ ":" ++ toString t.jti

/-- Modelled from the spec: the magic-link issuance response
(src/unnamed/part_000): destination URL, the issued token, the
remaining-seconds-to-expiry and a success message. -/
structure MagicLinkResp where
  magic_link : String
  token : MagicToken
  expires_in_seconds : Nat
  message : String
deriving DecidableEq

/-- Not-found failure for an unresolvable user id (spec 7 NotFoundError). -/
inductive ApiError where
  | notFound
deriving DecidableEq

/-- Modelled from the spec: magic-link issuance (spec 4.4): an unknown user id
is a not-found error; otherwise a fresh token with expiry now + 900 is signed,
its hash persisted as an unconsumed record, and the full link returned with
expires_in_seconds 900. Nothing reads or invalidates earlier links. -/
def issueMagicLink (portal : String) (now : Nat) (st : ServerState) (uid : String) :
    Except ApiError (MagicLinkResp × ServerState) :=
  if st.users.contains uid then
    let tok : MagicToken := ⟨uid, now + 900, st.nextLinkId⟩
    let row : MagicLinkRec := ⟨st.nextLinkId, uid, tokenHash tok, now + 900, false⟩
    Except.ok
      (⟨portal ++ "/auth/magic?token=" ++ encodeToken tok, tok, 900,
        "Magic link generated successfully"⟩,
       { st with magicLinks := st.magicLinks ++ [row], nextLinkId := st.nextLinkId + 1 })
  else Except.error ApiError.notFound

/-- C5: magic-link issuance for an unknown user id fails with a not-found
error; for an existing user it returns expires_in_seconds exactly 900 and a
token whose expiry claim is issue time plus 900 seconds, and two consecutive
issuances for the same user yield two distinct tokens while both persisted
records remain present and unconsumed. -/
theorem magic_link_issuance (portal : String) (now now2 : Nat) (st : ServerState)
    (uid : String) :
    (st.users.contains uid = false →
      issueMagicLink portal now st uid = Except.error ApiError.notFound) ∧
    (st.users.contains uid = true →
      ∃ r st1, issueMagicLink portal now st uid = Except.ok (r, st1) ∧
        r.expires_in_seconds = 900 ∧
        r.token.expires_at = now + 900 ∧
        r.magic_link = portal ++ "/auth/magic?token=" ++ encodeToken r.token ∧
        ∃ r2 st2, issueMagicLink portal now2 st1 uid = Except.ok (r2, st2) ∧
          r2.expires_in_seconds = 900 ∧
          r2.token ≠ r.token ∧
          (∃ rec1, rec1 ∈ st2.magicLinks ∧ rec1.link_id = r.token.jti ∧
            rec1.token_hash = tokenHash r.token ∧ rec1.consumed = false) ∧
          (∃ rec2, rec2 ∈ st2.magicLinks ∧ rec2.link_id = r2.token.jti ∧
            rec2.token_hash = tokenHash r2.token ∧ rec2.consumed = false)) := by
  have hok : ∀ (p : String) (n : Nat) (s : ServerState), s.users.contains uid = true →
      issueMagicLink p n s uid = Except.ok
        (⟨p ++ "/auth/magic?token=" ++ encodeToken ⟨uid, n + 900, s.nextLinkId⟩,
          ⟨uid, n + 900, s.nextLinkId⟩, 900, "Magic link generated successfully"⟩,
         ⟨s.users, s.credentials, s.referralProfiles, s.withdrawRows,
          s.magicLinks ++
            [⟨s.nextLinkId, uid, tokenHash ⟨uid, n + 900, s.nextLinkId⟩, n + 900, false⟩],
          s.nextLinkId + 1⟩) := by
    intro p n s hs
    unfold issueMagicLink
    rw [if_pos hs]
  constructor
  · intro h
    unfold issueMagicLink
    rw [if_neg]
    simpa using h
  · intro h
    refine ⟨_, _, hok portal now st h, rfl, rfl, rfl, ?_⟩
    refine ⟨_, _, hok portal now2 _ h, rfl, ?_, ?_, ?_⟩
    · intro he
      have := congrArg MagicToken.jti he
      simp at this
    · exact ⟨⟨st.nextLinkId, uid, tokenHash ⟨uid, now + 900, st.nextLinkId⟩, now + 900,
        false⟩, by simp, rfl, rfl, rfl⟩
    · exact ⟨⟨st.nextLinkId + 1, uid,
        tokenHash ⟨uid, now2 + 900, st.nextLinkId + 1⟩, now2 + 900, false⟩,
        by simp, rfl, rfl, rfl⟩

/-- Witness for C5 at a concrete store: issuance fails for the unknown user
"ghost" and succeeds twice for the known user "u1". -/
theorem magic_link_issuance_witness :
    issueMagicLink "https://p" 1000 ⟨["u1"], [], [], [], [], 0⟩ "ghost" =
      Except.error ApiError.notFound ∧
    (∃ r st1,
      issueMagicLink "https://p" 1000 ⟨["u1"], [], [], [], [], 0⟩ "u1" =
        Except.ok (r, st1) ∧
      r.expires_in_seconds = 900 ∧
      r.token.expires_at = 1000 + 900 ∧
      r.magic_link = "https://p" ++ "/auth/magic?token=" ++ encodeToken r.token ∧
      ∃ r2 st2, issueMagicLink "https://p" 1060 st1 "u1" = Except.ok (r2, st2) ∧
        r2.expires_in_seconds = 900 ∧
        r2.token ≠ r.token ∧
        (∃ rec1, rec1 ∈ st2.magicLinks ∧ rec1.link_id = r.token.jti ∧
          rec1.token_hash = tokenHash r.token ∧ rec1.consumed = false) ∧
        (∃ rec2, rec2 ∈ st2.magicLinks ∧ rec2.link_id = r2.token.jti ∧
          rec2.token_hash = tokenHash r2.token ∧ rec2.consumed = false)) :=
  ⟨(magic_link_issuance "https://p" 1000 1060 ⟨["u1"], [], [], [], [], 0⟩ "ghost").1
     (by decide),
   (magic_link_issuance "https://p" 1000 1060 ⟨["u1"], [], [], [], [], 0⟩ "u1").2
     (by decide)⟩

/-- Modelled from the spec: the credentials read model (spec 4.5,
src/unnamed/part_000 endpoint 1): the stored rows of the user, optionally
filtered by game name, projected unchanged. -/
def getCredentials (st : ServerState) (uid : String) (game : Option String) :
    List GameCredential :=
  st.credentials.filter (fun c =>
    c.user_id == uid &&
      (match game with
       | some g => c.game_name == g
       | none => true))

/-- Modelled from the spec: the referral response shape
(src/unnamed/part_000 endpoint 2) with the tier derived by `resolveTier`. -/
structure ReferralResp where
  referral_code : String
  tier_level : Nat
  tier_name : String
  commission_percent : Nat
  active_referrals : Nat
  pending_earnings : ℚ
  confirmed_earnings : ℚ
  total_earnings : ℚ
deriving DecidableEq

/-- Modelled from the spec: the referral read model (spec 4.5): a distinct
not-found error when the user id itself is unresolvable; an existing user
with no profile row gets an empty/zero-valued structure rather than an
error. -/
def getReferral (st : ServerState) (uid : String) : Except ApiError ReferralResp :=
  if st.users.contains uid then
    match st.referralProfiles.find? (fun p => p.user_id == uid) with
    | some p =>
      let t := resolveTier p.active_referrals
      Except.ok ⟨p.referral_code, t.tier, t.name, t.commission, p.active_referrals,
        p.pending_earnings, p.confirmed_earnings,
        p.pending_earnings + p.confirmed_earnings⟩
    | none =>
      Except.ok ⟨"", tier0.tier, tier0.name, tier0.commission, 0, 0, 0, 0⟩
  else Except.error ApiError.notFound

/-- C7: the credentials query with a game_name filter returns exactly the
user's stored rows whose game name matches, and without the filter all of the
user's rows; a user id owning no rows yields an empty list rather than an
error, while the referral query yields a distinct not-found error for an
unresolvable user id. -/
theorem credentials_query (st : ServerState) (uid g : String) (c : GameCredential) :
    (c ∈ getCredentials st uid (some g) ↔
      c ∈ st.credentials ∧ c.user_id = uid ∧ c.game_name = g) ∧
    (c ∈ getCredentials st uid none ↔ c ∈ st.credentials ∧ c.user_id = uid) ∧
    ((∀ r ∈ st.credentials, r.user_id ≠ uid) →
      ∀ go : Option String, getCredentials st uid go = []) ∧
    (st.users.contains uid = false → getReferral st uid = Except.error ApiError.notFound) := by
  refine ⟨?_, ?_, ?_, ?_⟩
  · simp [getCredentials, List.mem_filter, and_assoc]
  · simp [getCredentials, List.mem_filter]
  · intro h go
    rw [getCredentials, List.filter_eq_nil]
    intro r hr
    simp [h r hr]
  · intro h
    unfold getReferral
    rw [if_neg]
    simpa using h

/-- Witness for C7 at a concrete store: one user with a juwa row and a mega
row; the filter keeps only the juwa row, the unfiltered query both, a row-less
user gets an empty list, and the referral lookup for an unknown id errors. -/
theorem credentials_query_witness :
    (⟨"u1", "g1", "juwa", "Juwa", "player123", "pw", 150⟩ ∈
        getCredentials ⟨["u1"],
          [⟨"u1", "g1", "juwa", "Juwa", "player123", "pw", 150⟩,
           ⟨"u1", "g2", "mega", "Mega", "player456", "pw2", 20⟩], [], [], [], 0⟩
          "u1" (some "juwa") ↔
      (True ∧ True ∧ True)) ∧
    getReferral ⟨["u1"],
        [⟨"u1", "g1", "juwa", "Juwa", "player123", "pw", 150⟩,
         ⟨"u1", "g2", "mega", "Mega", "player456", "pw2", 20⟩], [], [], [], 0⟩ "ghost" =
      Except.error ApiError.notFound := by
  have h := credentials_query ⟨["u1"],
    [⟨"u1", "g1", "juwa", "Juwa", "player123", "pw", 150⟩,
     ⟨"u1", "g2", "mega", "Mega", "player456", "pw2", 20⟩], [], [], [], 0⟩
    "u1" "juwa" ⟨"u1", "g1", "juwa", "Juwa", "player123", "pw", 150⟩
  have hg := credentials_query ⟨["u1"],
    [⟨"u1", "g1", "juwa", "Juwa", "player123", "pw", 150⟩,
     ⟨"u1", "g2", "mega", "Mega", "player456", "pw2", 20⟩], [], [], [], 0⟩
    "ghost" "juwa" ⟨"u1", "g1", "juwa", "Juwa", "player123", "pw", 150⟩
  constructor
  · constructor
    · intro hm
      exact ⟨trivial, trivial, trivial⟩
    · intro hm
      exact h.1.mpr ⟨by simp, rfl, rfl⟩
  · exact hg.2.2.2 (by decide)

/-- A reviewer row of the admin panel's allowlist
(src/Telegram_Bot_Admin_Panel_Backend schema: serial id, nullable username
and chat_id, created_at timestamp). -/
structure Reviewer where
  id : Nat
  username : Option String
  chatId : Option String
  createdAt : Nat
deriving DecidableEq

/-- The admin panel's backing table plus the serial-id counter. -/
structure AdminDb where
  reviewers : List Reviewer
  nextId : Nat
deriving DecidableEq

/-- One character of the username character class [A-Za-z0-9_]
(server.ts normalizeUsername regular expression). -/
def isUsernameChar (c : Char) : Bool :=
  (decide ('A' ≤ c) && decide (c ≤ 'Z')) || (decide ('a' ≤ c) && decide (c ≤ 'z')) ||
    (decide ('0' ≤ c) && decide (c ≤ '9')) || c == '_'

/-- JavaScript String.prototype.trim on the character list: whitespace
stripped from both ends. -/
def trimChars (l : List Char) : List Char :=
  ((l.dropWhile Char.isWhitespace).reverse.dropWhile Char.isWhitespace).reverse

/-- JavaScript String.prototype.trim, embedded through the character list. -/
def trimStr (s : String) : String := String.mk (trimChars s.data)

/-- server.ts normalizeUsername: a falsy (absent or empty) input is null;
the input is trimmed, an empty trim is null, a leading @ is stripped, and the
result must match the character class with length 3 to 32. -/
def normalizeUsername (input : Option String) : Option String :=
  match input with
  | none => none
  | some raw =>
    if raw == "" then none
    else
      let s := trimStr raw
      if s == "" then none
      else
        let s2 :=
          match s.data with
          | '@' :: rest => String.mk rest
          | _ => s
        if decide (3 ≤ s2.length) && decide (s2.length ≤ 32) && s2.data.all isUsernameChar
        then some s2 else none

/-- JSON response shape of the admin panel routes: HTTP status plus the
optional ok/message/reviewer/reviewers/deleted fields the handlers set
(a none field is absent from the JSON). GET / serves a file instead; its
response carries status 200 and none fields. -/
structure AdminResp where
  status : Nat
  ok : Option Bool
  message : Option String
  reviewer : Option Reviewer
  reviewers : Option (List Reviewer)
  deleted : Option Nat
deriving DecidableEq

/-- server.ts POST /add: normalize the username (400 when null); return the
already stored row with message "Already exists" when one matches (the
`limit(1)` select); otherwise insert exactly one new row and return it with
message "Added". -/
def addReviewer (db : AdminDb) (now : Nat) (body : Option String) : AdminResp × AdminDb :=
  match normalizeUsername body with
  | none => (⟨400, some false, some "Provide username (@username)", none, none, none⟩, db)
  | some u =>
    match db.reviewers.find? (fun r => r.username == some u) with
    | some row => (⟨200, some true, some "Already exists", some row, none, none⟩, db)
    | none =>
      (⟨200, some true, some "Added", some ⟨db.nextId, some u, none, now⟩, none, none⟩,
       ⟨db.reviewers ++ [⟨db.nextId, some u, none, now⟩], db.nextId + 1⟩)

/-- server.ts POST /remove: normalize the username (400 when null); delete
every row whose username matches and report how many were deleted. -/
def removeReviewer (db : AdminDb) (body : Option String) : AdminResp × AdminDb :=
  match normalizeUsername body with
  | none => (⟨400, some false, some "Provide username", none, none, none⟩, db)
  | some u =>
    (⟨200, some true, none, none, none,
      some (db.reviewers.filter (fun r => r.username == some u)).length⟩,
     ⟨db.reviewers.filter (fun r => !(r.username == some u)), db.nextId⟩)

/-- server.ts GET /list: all rows ordered by created_at descending. -/
def listReviewers (db : AdminDb) : AdminResp × AdminDb :=
  (⟨200, some true, none, none,
    some (db.reviewers.insertionSort (fun a b => b.createdAt ≤ a.createdAt)), none⟩, db)

/-- server.ts requireAdmin middleware: the request passes exactly when the
x-admin-secret header is present, truthy (non-empty) and strictly equal to
ADMIN_SECRET; otherwise 401. -/
def requireAdmin (adminSecret : String) (header : Option String) : Bool :=
  match header with
  | none => false
  | some s => !(s == "") && s == adminSecret

/-- The 401 body `{ok:false, message:"Unauthorized"}` of requireAdmin. -/
def unauthorizedResp : AdminResp := ⟨401, some false, some "Unauthorized", none, none, none⟩

/-- The five routes server.ts registers; / and /health are registered before
`app.use(requireAdmin)`, the rest after. -/
inductive AdminRoute where
  | root
  | health
  | list
  | add
  | remove
deriving DecidableEq

/-- An admin-panel request: the x-admin-secret header and the username body
field. -/
structure AdminRequest where
  header : Option String
  body : Option String
deriving DecidableEq

/-- server.ts request dispatch: GET / and GET /health answer before the
requireAdmin middleware; /list, /add and /remove run their handler only when
the guard passes and answer 401 otherwise. -/
def handleAdmin (adminSecret : String) (route : AdminRoute) (req : AdminRequest)
    (db : AdminDb) (now : Nat) : AdminResp × AdminDb :=
  match route with
  | AdminRoute.root => (⟨200, none, some "index.html", none, none, none⟩, db)
  | AdminRoute.health =>
    (⟨200, some true, some "tg-admin-api", none, none, none⟩, db)
  | AdminRoute.list =>
    if requireAdmin adminSecret req.header then listReviewers db
    else (unauthorizedResp, db)
  | AdminRoute.add =>
    if requireAdmin adminSecret req.header then addReviewer db now req.body
    else (unauthorizedResp, db)
  | AdminRoute.remove =>
    if requireAdmin adminSecret req.header then removeReviewer db req.body
    else (unauthorizedResp, db)

/-- How many allowlist rows carry a given username. -/
def usernameCount (l : List Reviewer) (u : String) : Nat :=
  (l.filter (fun r => r.username == some u)).length

/-- No username is carried by two rows. -/
def noDupUsernames (l : List Reviewer) : Prop :=
  ∀ u : String, usernameCount l u ≤ 1

/-- A sequence of POST /add calls applied in order. -/
def addMany (db : AdminDb) (now : Nat) (bodies : List (Option String)) : AdminDb :=
  bodies.foldl (fun d b => (addReviewer d now b).2) db

theorem addReviewer_preserves_noDup (db : AdminDb) (now : Nat) (body : Option String)
    (h : noDupUsernames db.reviewers) : noDupUsernames (addReviewer db now body).2.reviewers := by
  cases hn : normalizeUsername body with
  | none => simpa only [addReviewer, hn] using h
  | some u =>
    cases hf : db.reviewers.find? (fun r => r.username == some u) with
    | some row => simpa only [addReviewer, hn, hf] using h
    | none =>
      intro v
      have hnil : db.reviewers.filter (fun r => r.username == some u) = [] := by
        rw [List.filter_eq_nil]
        intro r hr
        exact List.find?_eq_none.mp hf r hr
      simp only [addReviewer, hn, hf]
      unfold usernameCount
      rw [List.filter_append]
      by_cases hv : v = u
      · subst hv
        have h0 : usernameCount db.reviewers v = 0 := by
          unfold usernameCount; rw [hnil]; rfl
        unfold usernameCount at h0
        rw [List.length_append, h0]
        simp
      · have h1 : ([(⟨db.nextId, some u, none, now⟩ : Reviewer)].filter
            (fun r => r.username == some v)) = [] := by
          simp [hv]
          intro he
          exact absurd he.symm hv
        rw [List.length_append, h1]
        simpa using h v

theorem addMany_preserves_noDup (now : Nat) (bodies : List (Option String)) :
    ∀ db : AdminDb, noDupUsernames db.reviewers →
      noDupUsernames (addMany db now bodies).reviewers := by
  induction bodies with
  | nil => intro db h; exact h
  | cons b bs ih =>
    intro db h
    exact ih (addReviewer db now b).2 (addReviewer_preserves_noDup db now b h)

/-- C8: POST /add is idempotent on the allowlist: when a row with the
normalized username already exists, the call answers ok "Already exists" with
the stored row and changes nothing; otherwise it appends exactly one new row;
consequently no sequence of /add calls ever creates two rows with the same
username. -/
theorem add_reviewer_idempotent (db : AdminDb) (now : Nat) (body : Option String)
    (u : String) :
    (normalizeUsername body = some u →
      (∀ row, db.reviewers.find? (fun r => r.username == some u) = some row →
        addReviewer db now body =
          (⟨200, some true, some "Already exists", some row, none, none⟩, db)) ∧
      (db.reviewers.find? (fun r => r.username == some u) = none →
        (addReviewer db now body).2.reviewers =
          db.reviewers ++ [⟨db.nextId, some u, none, now⟩])) ∧
    (noDupUsernames db.reviewers →
      ∀ bodies : List (Option String), noDupUsernames ((addMany db now bodies).reviewers)) := by
  constructor
  · intro hn
    constructor
    · intro row hf
      simp only [addReviewer, hn, hf]
    · intro hf
      simp only [addReviewer, hn, hf]
  · intro h bodies
    exact addMany_preserves_noDup now bodies db h

/-- Witness for C8 at a concrete table: adding "@bob" when a "bob" row exists
answers "Already exists" and leaves the table unchanged, and the no-duplicate
invariant survives a concrete /add sequence. -/
theorem add_reviewer_idempotent_witness :
    (addReviewer ⟨[⟨1, some "bob", none, 5⟩], 2⟩ 7 (some "@bob") =
      (⟨200, some true, some "Already exists", some ⟨1, some "bob", none, 5⟩, none, none⟩,
       ⟨[⟨1, some "bob", none, 5⟩], 2⟩)) ∧
    noDupUsernames ((addMany ⟨[⟨1, some "bob", none, 5⟩], 2⟩ 7
      [some "@bob", some "bob", some "alice"]).reviewers) := by
  constructor
  · exact ((add_reviewer_idempotent ⟨[⟨1, some "bob", none, 5⟩], 2⟩ 7 (some "@bob")
      "bob").1 (by decide)).1 ⟨1, some "bob", none, 5⟩ (by decide)
  · refine (add_reviewer_idempotent ⟨[⟨1, some "bob", none, 5⟩], 2⟩ 7 (some "@bob")
      "bob").2 ?_ [some "@bob", some "bob", some "alice"]
    intro v
    have hle := List.length_filter_le (fun r => r.username == some v)
      [(⟨1, some "bob", none, 5⟩ : Reviewer)]
    simpa [usernameCount] using hle

/-- C9: every /list, /add or /remove request whose x-admin-secret header is
absent, empty, or not exactly the configured secret receives the 401
`{ok:false, message:"Unauthorized"}` response with the table untouched, while
GET / and GET /health answer 200 with no secret because they are registered
before the guard. -/
theorem admin_guard (adminSecret : String) (route : AdminRoute) (req : AdminRequest)
    (db : AdminDb) (now : Nat) :
    ((route = AdminRoute.list ∨ route = AdminRoute.add ∨ route = AdminRoute.remove) →
      (req.header = none ∨ req.header = some "" ∨
        (∃ s, req.header = some s ∧ s ≠ adminSecret)) →
      handleAdmin adminSecret route req db now = (unauthorizedResp, db)) ∧
    handleAdmin adminSecret AdminRoute.root ⟨none, none⟩ db now =
      (⟨200, none, some "index.html", none, none, none⟩, db) ∧
    handleAdmin adminSecret AdminRoute.health ⟨none, none⟩ db now =
      (⟨200, some true, some "tg-admin-api", none, none, none⟩, db) ∧
    unauthorizedResp.status = 401 ∧ unauthorizedResp.ok = some false ∧
    unauthorizedResp.message = some "Unauthorized" := by
  refine ⟨?_, rfl, rfl, rfl, rfl, rfl⟩
  intro hroute hbad
  have hguard : requireAdmin adminSecret req.header = false := by
    rcases hbad with h | h | ⟨s, hs, hne⟩
    · simp [requireAdmin, h]
    · simp [requireAdmin, h]
    · simp [requireAdmin, hs, hne]
  rcases hroute with h | h | h <;> subst h <;> simp [handleAdmin, hguard]

/-- Witness for C9: with secret "tops3cret", a /list request with no header,
an /add request with an empty header and a /remove request with a wrong
header all answer 401 and leave the concrete table unchanged. -/
theorem admin_guard_witness :
    handleAdmin "tops3cret" AdminRoute.list ⟨none, none⟩ ⟨[], 1⟩ 0 =
      (unauthorizedResp, ⟨[], 1⟩) ∧
    handleAdmin "tops3cret" AdminRoute.add ⟨some "", some "@bob"⟩ ⟨[], 1⟩ 0 =
      (unauthorizedResp, ⟨[], 1⟩) ∧
    handleAdmin "tops3cret" AdminRoute.remove ⟨some "tops3cret ", some "@bob"⟩ ⟨[], 1⟩ 0 =
      (unauthorizedResp, ⟨[], 1⟩) ∧
    handleAdmin "tops3cret" AdminRoute.root ⟨none, none⟩ ⟨[], 1⟩ 0 =
      (⟨200, none, some "index.html", none, none, none⟩, ⟨[], 1⟩) :=
  ⟨(admin_guard "tops3cret" AdminRoute.list ⟨none, none⟩ ⟨[], 1⟩ 0).1
     (Or.inl rfl) (Or.inl rfl),
   (admin_guard "tops3cret" AdminRoute.add ⟨some "", some "@bob"⟩ ⟨[], 1⟩ 0).1
     (Or.inr (Or.inl rfl)) (Or.inr (Or.inl rfl)),
   (admin_guard "tops3cret" AdminRoute.remove ⟨some "tops3cret ", some "@bob"⟩ ⟨[], 1⟩ 0).1
     (Or.inr (Or.inr rfl)) (Or.inr (Or.inr ⟨"tops3cret ", rfl, by decide⟩)),
   (admin_guard "tops3cret" AdminRoute.root ⟨none, none⟩ ⟨[], 1⟩ 0).2.1⟩

/-- The JSON body of POST /api/tags (TagStore_Server tag.controller createTag):
the three expected fields, each possibly absent. -/
structure TagBody where
  title : Option String
  type : Option String
  text : Option String
deriving DecidableEq

/-- A stored tag document (TagStore_Server tag.model): trimmed title and
text, lowercased trimmed type, and the uploadedAt timestamp. -/
structure TagDoc where
  id : Nat
  title : String
  type : String
  text : String
  uploadedAt : Nat
deriving DecidableEq

/-- The tag collection plus the next document id. -/
structure TagStore where
  tags : List TagDoc
  nextId : Nat
deriving DecidableEq

/-- HTTP response of createTag: status plus the stored document on 201 or the
error message otherwise. -/
structure TagResp where
  status : Nat
  doc : Option TagDoc
  message : Option String
deriving DecidableEq

/-- JavaScript falsiness of an optional string body field: absent or empty. -/
def falsy : Option String → Bool
  | none => true
  | some s => s == ""

/-- JavaScript String.prototype.toLowerCase, embedded through the character
list. -/
def lowerStr (s : String) : String := String.mk (s.data.map Char.toLower)

/-- The `enum: ["cashapp", "chime", "other"]` constraint of tagSchema's type
field (tag.model.js). -/
def validTagType (s : String) : Bool :=
  s == "cashapp" || s == "chime" || s == "other"

/-- mongoose Tag.create under tagSchema (tag.model.js): title, type and text
are required (an empty string fails required) and type must lie in the enum;
the schema's trim and lowercase setters coincide with the normalization the
controller has already applied to these arguments. A validation failure is
the rejection the controller's catch turns into a 500. -/
def tagCreate (title ty tx : String) (id now : Nat) : Except String TagDoc :=
  if title == "" then Except.error "ValidationError: title is required"
  else if ty == "" then Except.error "ValidationError: type is required"
  else if tx == "" then Except.error "ValidationError: text is required"
  else if !validTagType ty then Except.error "ValidationError: type enum"
  else Except.ok ⟨id, title, ty, tx, now⟩

/-- tag.controller.js createTag: destructure `req.body || {}`; 400 when
title, type or text is falsy; otherwise `Tag.create` with trimmed title and
text and trimmed lowercased type, answering 201 with the stored document or
500 when create throws. -/
def createTag (body : Option TagBody) (store : TagStore) (now : Nat) :
    TagResp × TagStore :=
  let b := body.getD ⟨none, none, none⟩
  if falsy b.title || falsy b.type || falsy b.text then
    (⟨400, none, some "title, type and text are required"⟩, store)
  else
    match tagCreate (trimStr (b.title.getD "")) (lowerStr (trimStr (b.type.getD "")))
        (trimStr (b.text.getD "")) store.nextId now with
    | Except.ok doc => (⟨201, some doc, none⟩, ⟨store.tags ++ [doc], store.nextId + 1⟩)
    | Except.error _ => (⟨500, none, some "Failed to create tag"⟩, store)

theorem tagCreate_error (title ty tx : String) (i n : Nat)
    (h : title = "" ∨ ty = "" ∨ tx = "" ∨ validTagType ty = false) :
    ∃ e, tagCreate title ty tx i n = Except.error e := by
  by_cases h1 : title = ""
  · exact ⟨"ValidationError: title is required", by simp [tagCreate, h1]⟩
  · by_cases h2 : ty = ""
    · exact ⟨"ValidationError: type is required", by simp [tagCreate, h1, h2]⟩
    · by_cases h3 : tx = ""
      · exact ⟨"ValidationError: text is required", by simp [tagCreate, h1, h2, h3]⟩
      · have h4 : validTagType ty = false := by
          rcases h with h | h | h | h
          · exact absurd h h1
          · exact absurd h h2
          · exact absurd h h3
          · exact h
        exact ⟨"ValidationError: type enum", by simp [tagCreate, h1, h2, h3, h4]⟩

/-- Counterexample to C10: the body {title:"a", type:"foo", text:"b"} has no
falsy field, yet createTag answers 500 (mongoose rejects "foo" against the
type enum), not 201 as the claim requires. -/
theorem create_tag_claim_counterexample :
    falsy (some "a") = false ∧ falsy (some "foo") = false ∧ falsy (some "b") = false ∧
    (createTag (some ⟨some "a", some "foo", some "b"⟩) ⟨[], 1⟩ 0).1.status = 500 ∧
    ¬ (createTag (some ⟨some "a", some "foo", some "b"⟩) ⟨[], 1⟩ 0).1.status = 201 := by
  decide

/-- C10 as amended: createTag returns 400 iff title, type or text is missing
or empty (falsy); with all three present and non-falsy, it answers 201 with
the document whose title and text are the trimmed inputs and whose type is
the trimmed lowercased input, storing it, provided the trimmed title and text
are nonempty and the normalized type lies in the schema enum cashapp, chime,
other; otherwise schema validation rejects the create and the controller
answers 500 with nothing stored. -/
theorem create_tag_validation (title ty tx : Option String) (store : TagStore) (now : Nat) :
    ((createTag none store now).1.status = 400 ∧ (createTag none store now).2 = store) ∧
    ((createTag (some ⟨title, ty, tx⟩) store now).1.status = 400 ↔
      (falsy title || falsy ty || falsy tx) = true) ∧
    ((createTag (some ⟨title, ty, tx⟩) store now).1.status = 400 →
      (createTag (some ⟨title, ty, tx⟩) store now).2 = store) ∧
    (∀ t y x : String, t ≠ "" → y ≠ "" → x ≠ "" →
      (¬ trimStr t = "" → ¬ trimStr x = "" →
        validTagType (lowerStr (trimStr y)) = true →
        createTag (some ⟨some t, some y, some x⟩) store now =
          (⟨201, some ⟨store.nextId, trimStr t, lowerStr (trimStr y), trimStr x, now⟩,
            none⟩,
           ⟨store.tags ++ [⟨store.nextId, trimStr t, lowerStr (trimStr y), trimStr x, now⟩],
            store.nextId + 1⟩)) ∧
      ((trimStr t = "" ∨ trimStr x = "" ∨ validTagType (lowerStr (trimStr y)) = false) →
        (createTag (some ⟨some t, some y, some x⟩) store now).1 =
          ⟨500, none, some "Failed to create tag"⟩ ∧
        (createTag (some ⟨some t, some y, some x⟩) store now).2 = store)) := by
  refine ⟨⟨by simp [createTag, falsy], by simp [createTag, falsy]⟩, ?_, ?_, ?_⟩
  · by_cases hf : (falsy title || falsy ty || falsy tx) = true
    · simp [createTag, hf]
    · simp only [Bool.not_eq_true] at hf
      obtain ⟨⟨hf1, hf2⟩, hf3⟩ : (falsy title = false ∧ falsy ty = false) ∧
          falsy tx = false := by
        simpa only [Bool.or_eq_false_iff] using hf
      constructor
      · intro h
        exfalso
        rcases htc : tagCreate (trimStr (title.getD "")) (lowerStr (trimStr (ty.getD "")))
            (trimStr (tx.getD "")) store.nextId now with e | d <;>
          simp [createTag, hf1, hf2, hf3, htc] at h
      · intro h
        rw [hf] at h
        cases h
  · intro h
    by_cases hf : (falsy title || falsy ty || falsy tx) = true
    · simp [createTag, hf]
    · exfalso
      simp only [Bool.not_eq_true] at hf
      obtain ⟨⟨hf1, hf2⟩, hf3⟩ : (falsy title = false ∧ falsy ty = false) ∧
          falsy tx = false := by
        simpa only [Bool.or_eq_false_iff] using hf
      rcases htc : tagCreate (trimStr (title.getD "")) (lowerStr (trimStr (ty.getD "")))
          (trimStr (tx.getD "")) store.nextId now with e | d <;>
        simp [createTag, hf1, hf2, hf3, htc] at h
  · intro t y x ht hy hx
    constructor
    · intro h1 h3 h4
      have h2 : ¬ lowerStr (trimStr y) = "" := by
        intro h0
        rw [h0] at h4
        simp [validTagType] at h4
      simp [createTag, falsy, ht, hy, hx, tagCreate, h1, h2, h3, h4]
    · intro hbad
      obtain ⟨e, he⟩ := tagCreate_error (trimStr t) (lowerStr (trimStr y)) (trimStr x)
        store.nextId now
        (by
          rcases hbad with h | h | h
          · exact Or.inl h
          · exact Or.inr (Or.inr (Or.inl h))
          · exact Or.inr (Or.inr (Or.inr h)))
      constructor <;> simp [createTag, falsy, ht, hy, hx, he]

/-- Witness for C10's amended claim: a valid body is stored with 201 and
normalized fields; a body typed "Crypto" passes the falsy check but is
rejected by the enum with 500 and nothing stored. -/
theorem create_tag_validation_witness :
    createTag (some ⟨some " Tag ", some " CashApp ", some " $hello "⟩) ⟨[], 1⟩ 3 =
      (⟨201, some ⟨1, trimStr " Tag ", lowerStr (trimStr " CashApp "),
        trimStr " $hello ", 3⟩, none⟩,
       ⟨[⟨1, trimStr " Tag ", lowerStr (trimStr " CashApp "), trimStr " $hello ", 3⟩],
        2⟩) ∧
    ((createTag (some ⟨some "t", some "Crypto", some "x"⟩) ⟨[], 1⟩ 3).1 =
      ⟨500, none, some "Failed to create tag"⟩ ∧
     (createTag (some ⟨some "t", some "Crypto", some "x"⟩) ⟨[], 1⟩ 3).2 = ⟨[], 1⟩) :=
  ⟨((create_tag_validation (some " Tag ") (some " CashApp ") (some " $hello ")
      ⟨[], 1⟩ 3).2.2.2 " Tag " " CashApp " " $hello " (by decide) (by decide) (by decide)).1
      (by decide) (by decide) (by decide),
   ((create_tag_validation (some "t") (some "Crypto") (some "x") ⟨[], 1⟩ 3).2.2.2
      "t" "Crypto" "x" (by decide) (by decide) (by decide)).2
      (Or.inr (Or.inr (by decide)))⟩

end Chatwoot
